import Mathlib

/-!
Shallow embedding of `src/libs/integrations/src/lib/integrations/base-executor.ts`
(the `BaseExecutor` class of the pezzo integrations library) and proofs about
the claims on its `run` orchestration method.

Modelling notes, matching JavaScript semantics of the source:

* Each call to an external capability (the pezzo client's `findPrompt`,
  `getDeployedPromptVersion`, `reportPromptExecution`, and the subclass's
  `execute`) is modelled by an oracle value of type `CallOutcome`: the call
  can throw synchronously (`syncThrow`), or return a promise that fulfils
  (`fulfill`) or rejects (`reject`).  The distinction between a synchronous
  throw and an asynchronous rejection is load-bearing: `getPrompt`,
  `getPromptVersion` and the first `reportPromptExecution` call all use the
  pattern `try { return client.f(...) } catch (e) { ... }` WITHOUT awaiting
  the promise inside the `try`, so in JavaScript the `catch` block fires only
  on a synchronous throw; a rejection of the returned promise bypasses the
  `catch` entirely and surfaces at the `await` in `run` (or as `run`'s own
  rejection, for the `return`ed report promise).

* `performance.now()` is modelled by the oracle's `startTime`/`endTime`
  rationals; `Math.ceil` is `Int.ceil` on `ℚ`.

* JavaScript numbers are modelled by `ℚ` (token counts and costs), and the
  numeric error status by `ℤ`.

* `interpolateVariables` (imported from `../utils/interpolate-variables`,
  outside the given sources) is an arbitrary pure function parameter of
  `run`; the spec treats it as an external pure utility.

* `run` returns, besides its outcome (fulfilled value or raised error), the
  trace of calls it made: the arguments of every `interpolateVariables`
  call, of every `execute` call, and of every `reportPromptExecution` call
  in order.
-/

namespace BaseExecutor

/-- Modelled from the spec: `PezzoClientError` (defined in `./types`, outside
the given sources) is the ClientError type: it carries a human message, the
original cause, and an optional numeric status code, in the argument order
used by its call sites in `base-executor.ts`.  `external` stands for any
other (opaque) JavaScript error value, with its `message` property. -/
inductive JsError where
  | external (id : Nat) (message : String)
  | pezzoClientError (message : String) (cause : JsError) (status : Option Int)
deriving Repr, DecidableEq

/-- The `message` property of a JavaScript error (read by the catch blocks of
`getPrompt` and `getPromptVersion`). -/
def JsError.message : JsError → String
  | .external _ m => m
  | .pezzoClientError m _ _ => m

/-- The `"Success" | "Error"` status union of `ExecuteResult`. -/
inductive Status where
  | success
  | error
deriving Repr, DecidableEq

/-- The optional `error` record of `ExecuteResult`:
`{ error: unknown; message?: string; printableError: string; status: number }`. -/
structure ErrRecord where
  error : JsError
  message : Option String
  printableError : String
  status : Int
deriving Repr, DecidableEq

/-- `ExecuteResult<T>` as declared in `base-executor.ts`. -/
structure ExecuteResult (T : Type) where
  status : Status
  promptTokens : ℚ
  completionTokens : ℚ
  promptCost : ℚ
  completionCost : ℚ
  error : Option ErrRecord
  result : Option T
deriving Repr, DecidableEq

/-- The deployed prompt version's `settings` object.  The source reads its
`model` and `modelSettings` properties and forwards the whole object to the
report; `otherFields` stands for any further properties it may carry (they
are dropped when building the `execute` settings). -/
structure PromptSettings where
  model : String
  modelSettings : List (String × String)
  otherFields : List (String × String)
deriving Repr, DecidableEq

/-- The settings object built at the `execute` call site:
`{ model: settings.model, modelSettings: settings.modelSettings }`. -/
structure ExecSettings where
  model : String
  modelSettings : List (String × String)
deriving Repr, DecidableEq

/-- `ExecuteOptions` as declared in `base-executor.ts`. -/
structure ExecuteOptions where
  autoParseJSON : Option Bool
deriving Repr, DecidableEq

/-- `ExecuteProps` (specialised to the settings object the orchestrator
actually builds) as passed to the subclass's `execute`. -/
structure ExecuteProps where
  content : String
  settings : ExecSettings
  options : ExecuteOptions
deriving Repr, DecidableEq

/-- The value resolved by `pezzoClient.findPrompt`. -/
structure Prompt where
  id : String
deriving Repr, DecidableEq

/-- The value resolved by `pezzoClient.getDeployedPromptVersion`. -/
structure PromptVersion where
  sha : String
  content : String
  settings : PromptSettings
deriving Repr, DecidableEq

/-- The `promptConnect` value `{ connect: { id: prompt.id } }`. -/
structure PromptConnect where
  connect : Prompt
deriving Repr, DecidableEq

/-- The report object passed to `pezzoClient.reportPromptExecution`.
`result` is `none` when the property is absent (retry payload) or set to an
absent backend result; `error` is `none` when the conditional spread
`...(executionResult.error && { error: ... })` adds nothing. -/
structure ExecutionReport where
  prompt : PromptConnect
  promptVersionSha : String
  status : Status
  content : String
  vars : List (String × String)
  interpolatedContent : String
  settings : PromptSettings
  result : Option String
  error : Option String
  promptTokens : ℚ
  completionTokens : ℚ
  totalTokens : ℚ
  promptCost : ℚ
  completionCost : ℚ
  totalCost : ℚ
  duration : Int
deriving Repr, DecidableEq

/-- One call to `pezzoClient.reportPromptExecution`: the report payload and
the second (`autoParseJSON`) argument (`none` when the argument is omitted). -/
structure ReportCall where
  report : ExecutionReport
  autoParseJSON : Option Bool
deriving Repr, DecidableEq

/-- Outcome of calling a promise-returning JavaScript function: it may throw
synchronously, or return a promise that fulfils or rejects. -/
inductive CallOutcome (α : Type) where
  | syncThrow (e : JsError)
  | fulfill (v : α)
  | reject (e : JsError)
deriving Repr, DecidableEq

/-- The call failed, either by a synchronous throw or by a rejection. -/
def CallOutcome.isFailure : CallOutcome α → Bool
  | .syncThrow _ => true
  | .reject _ => true
  | .fulfill _ => false

/-- The call returned a promise (did not throw synchronously); the promise
then either fulfilled or rejected. -/
def CallOutcome.settles : CallOutcome α → Bool
  | .syncThrow _ => false
  | .fulfill _ => true
  | .reject _ => true

/-- Oracle fixing the behaviour of the environment during one `run`: the
outcome of each external call (in program order) and the two
`performance.now()` readings.  `T` is the type parameter of
`reportPromptExecution<T>`. -/
structure Env (T : Type) where
  findPrompt : CallOutcome Prompt
  getDeployedPromptVersion : CallOutcome PromptVersion
  execute : CallOutcome (ExecuteResult String)
  reportFirst : CallOutcome T
  reportRetry : CallOutcome T
  startTime : ℚ
  endTime : ℚ

/-- Result of one `run`: the trace of external calls made, and the settled
outcome of the returned promise (`.ok` = fulfilled, `.error` = rejected /
thrown). -/
structure RunTrace (T : Type) where
  interpolateCalls : List (String × List (String × String))
  executeCalls : List ExecuteProps
  reportCalls : List ReportCall
  outcome : Except JsError T
deriving Repr

/-- The message of the `PezzoClientError` raised when the execution result
carries an error record (line 83 of `base-executor.ts`). -/
def executionFailedMessage : String :=
  "Prompt execution failed. Check the Pezzo History to see what went wrong."

/-- Shallow embedding of `BaseExecutor.run` (lines 57-147 of
`base-executor.ts`), parametrised by the pure `interpolateVariables`
utility and the environment oracle `env`.

Control-flow notes justified by JavaScript semantics:
* `getPrompt` / `getPromptVersion` wrap a synchronous throw of the client
  call in a `PezzoClientError (error.message) error`, but `return` the
  promise unawaited inside the `try`, so a rejection bypasses the `catch`
  and surfaces unwrapped at the corresponding `await` in `run`.
* When `executionResult.error` is set, `run` throws the classified
  `PezzoClientError` at once (line 82); no code after line 87 executes, so
  no report is submitted on that path.
* The first `reportPromptExecution` call is `return`ed unawaited inside the
  `try`; its `catch` therefore fires only on a synchronous throw.  A
  rejection of the returned promise becomes `run`'s own rejection, with no
  retry.
* In the `catch` block the retry call is not awaited: if it returns a
  promise, that promise's settlement is ignored and `throw e` re-raises the
  first call's synchronous exception; if the retry call itself throws
  synchronously, that exception aborts the `catch` block before `throw e`. -/
def run (T : Type) (interpolateVariables : String → List (String × String) → String)
    (env : Env T) (vars : List (String × String)) (options : ExecuteOptions) :
    RunTrace T :=
  match env.findPrompt with
  | .syncThrow e => ⟨[], [], [], .error (.pezzoClientError e.message e none)⟩
  | .reject e => ⟨[], [], [], .error e⟩
  | .fulfill prompt =>
    match env.getDeployedPromptVersion with
    | .syncThrow e => ⟨[], [], [], .error (.pezzoClientError e.message e none)⟩
    | .reject e => ⟨[], [], [], .error e⟩
    | .fulfill promptVersion =>
      let settings := promptVersion.settings
      let content := promptVersion.content
      let interpolatedContent := interpolateVariables content vars
      let interpolateCalls := [(content, vars)]
      let executeProps : ExecuteProps :=
        { content := interpolatedContent
          settings := { model := settings.model, modelSettings := settings.modelSettings }
          options := options }
      match env.execute with
      | .syncThrow e => ⟨interpolateCalls, [executeProps], [], .error e⟩
      | .reject e => ⟨interpolateCalls, [executeProps], [], .error e⟩
      | .fulfill executionResult =>
        match executionResult.error with
        | some errRecord =>
          ⟨interpolateCalls, [executeProps], [],
            .error (.pezzoClientError executionFailedMessage errRecord.error
              (some errRecord.status))⟩
        | none =>
          let duration : Int := ⌈env.endTime - env.startTime⌉
          let promptConnect : PromptConnect := { connect := { id := prompt.id } }
          let firstReport : ExecutionReport :=
            { prompt := promptConnect
              promptVersionSha := promptVersion.sha
              status := executionResult.status
              content := content
              vars := vars
              interpolatedContent := interpolatedContent
              settings := settings
              result := executionResult.result
              error := executionResult.error.map (fun er => er.printableError)
              promptTokens := executionResult.promptTokens
              completionTokens := executionResult.completionTokens
              totalTokens := executionResult.promptTokens + executionResult.completionTokens
              promptCost := executionResult.promptCost
              completionCost := executionResult.completionCost
              totalCost := executionResult.promptCost + executionResult.completionCost
              duration := duration }
          match env.reportFirst with
          | .fulfill v =>
            ⟨interpolateCalls, [executeProps],
              [⟨firstReport, options.autoParseJSON⟩], .ok v⟩
          | .reject e =>
            ⟨interpolateCalls, [executeProps],
              [⟨firstReport, options.autoParseJSON⟩], .error e⟩
          | .syncThrow e =>
            let retryReport : ExecutionReport :=
              { prompt := promptConnect
                promptVersionSha := promptVersion.sha
                status := .error
                content := content
                vars := vars
                interpolatedContent := interpolatedContent
                settings := settings
                result := none
                error := executionResult.error.map (fun er => er.printableError)
                promptTokens := executionResult.promptTokens
                completionTokens := executionResult.completionTokens
                totalTokens := executionResult.promptTokens + executionResult.completionTokens
                promptCost := executionResult.promptCost
                completionCost := executionResult.completionCost
                totalCost := executionResult.promptCost + executionResult.completionCost
                duration := duration }
            match env.reportRetry with
            | .syncThrow retryError =>
              ⟨interpolateCalls, [executeProps],
                [⟨firstReport, options.autoParseJSON⟩, ⟨retryReport, none⟩],
                .error retryError⟩
            | .fulfill _ =>
              ⟨interpolateCalls, [executeProps],
                [⟨firstReport, options.autoParseJSON⟩, ⟨retryReport, none⟩], .error e⟩
            | .reject _ =>
              ⟨interpolateCalls, [executeProps],
                [⟨firstReport, options.autoParseJSON⟩, ⟨retryReport, none⟩], .error e⟩

/-! Concrete sample data, used by the closed theorems (counterexamples,
code-behaviour evaluations and witnesses) below. -/

/-- A sample pure interpolation utility (identity on the template). -/
def sampleInterp : String → List (String × String) → String := fun t _ => t

/-- Sample deployed-version settings, with one extra field beyond `model` and
`modelSettings`. -/
def sampleSettings : PromptSettings :=
  ⟨"gpt-4", [("temperature", "0.5")], [("someOtherField", "1")]⟩

/-- Sample deployed prompt version. -/
def samplePV : PromptVersion := ⟨"abc123", "Hello, name!", sampleSettings⟩

/-- Sample successful backend execution result. -/
def sampleResultOk : ExecuteResult String :=
  ⟨.success, 3, 2, 1/1000, 2/1000, none, some "Hi Ada"⟩

/-- Sample backend error record (rate limiting, HTTP 429). -/
def sampleErrRecord : ErrRecord :=
  ⟨.external 7 "rate limit hit", none, "rate limited", 429⟩

/-- Sample failed backend execution result carrying `sampleErrRecord`. -/
def sampleResultErr : ExecuteResult String :=
  ⟨.error, 3, 2, 1/1000, 2/1000, some sampleErrRecord, none⟩

/-- Sample execution options with the `autoParseJSON` hint set. -/
def sampleOptions : ExecuteOptions := ⟨some true⟩

/-- Environment of a fully successful run. -/
def sampleEnvOk : Env String :=
  ⟨.fulfill ⟨"p1"⟩, .fulfill samplePV, .fulfill sampleResultOk,
    .fulfill "reported", .fulfill "retried", 0, 5⟩

/-- Environment of a run whose backend result carries an error record. -/
def sampleEnvErr : Env String :=
  ⟨.fulfill ⟨"p1"⟩, .fulfill samplePV, .fulfill sampleResultErr,
    .fulfill "reported", .fulfill "retried", 0, 5⟩

/-- The lookup failure used by the resolution-failure environments. -/
def lookupFailure : JsError := .external 21 "prompt not found"

/-- Environment where the `findPrompt` promise rejects. -/
def sampleEnvLookupReject : Env String :=
  ⟨.reject lookupFailure, .fulfill samplePV, .fulfill sampleResultOk,
    .fulfill "reported", .fulfill "retried", 0, 5⟩

/-- Environment where `findPrompt` throws synchronously. -/
def sampleEnvLookupThrow : Env String :=
  ⟨.syncThrow lookupFailure, .fulfill samplePV, .fulfill sampleResultOk,
    .fulfill "reported", .fulfill "retried", 0, 5⟩

/-- The first report submission's synchronous failure. -/
def firstFailure : JsError := .external 11 "first submission failed"

/-- The retry report submission's rejection. -/
def retryFailure : JsError := .external 12 "retry submission failed"

/-- Environment where the first report submission throws synchronously and
the retry's promise rejects with a different error. -/
def sampleEnvReportFail : Env String :=
  ⟨.fulfill ⟨"p1"⟩, .fulfill samplePV, .fulfill sampleResultOk,
    .syncThrow firstFailure, .reject retryFailure, 0, 5⟩

/-- The report call `run` makes in `sampleEnvOk` (spelled with the same
projections the orchestrator uses, so it is definitionally the traced call). -/
def sampleReportCall : ReportCall :=
  ⟨{ prompt := ⟨⟨"p1"⟩⟩
     promptVersionSha := samplePV.sha
     status := sampleResultOk.status
     content := samplePV.content
     vars := []
     interpolatedContent := sampleInterp samplePV.content []
     settings := samplePV.settings
     result := sampleResultOk.result
     error := sampleResultOk.error.map (fun er => er.printableError)
     promptTokens := sampleResultOk.promptTokens
     completionTokens := sampleResultOk.completionTokens
     totalTokens := sampleResultOk.promptTokens + sampleResultOk.completionTokens
     promptCost := sampleResultOk.promptCost
     completionCost := sampleResultOk.completionCost
     totalCost := sampleResultOk.promptCost + sampleResultOk.completionCost
     duration := ⌈sampleEnvOk.endTime - sampleEnvOk.startTime⌉ },
   sampleOptions.autoParseJSON⟩

/-- Claim C1 (code bug evaluation): on a run whose backend result carries an
error record, the code submits NO report at all — it throws the classified
`PezzoClientError` at line 82, before the report block — where the claim
(and the spec's always-report rule) requires exactly one report with status
"Error" before the raise. -/
theorem C1_error_result_submits_no_report :
    (run String sampleInterp sampleEnvErr [] sampleOptions).reportCalls = [] ∧
    (run String sampleInterp sampleEnvErr [] sampleOptions).outcome =
      .error (.pezzoClientError executionFailedMessage (.external 7 "rate limit hit")
        (some 429)) :=
  ⟨rfl, rfl⟩

/-- Claim C2 (counterexample): the raised error's message is the source's
string, which mentions "the Pezzo History", not the claim's fixed string
"... Check the history ...". -/
theorem C2_message_counterexample :
    (run String sampleInterp sampleEnvErr [] sampleOptions).outcome =
      .error (.pezzoClientError executionFailedMessage (.external 7 "rate limit hit")
        (some 429)) ∧
    executionFailedMessage ≠
      "Prompt execution failed. Check the history to see what went wrong." :=
  ⟨rfl, by decide⟩

/-- Claim C2 (amended): for every run whose backend result carries an error
record, the raised error is a `PezzoClientError` whose message is exactly
"Prompt execution failed. Check the Pezzo History to see what went wrong."
and which carries the error record's cause and numeric status code. -/
theorem C2_amended_classified_error (T : Type)
    (interp : String → List (String × String) → String) (env : Env T)
    (vars : List (String × String)) (options : ExecuteOptions)
    (p : Prompt) (pv : PromptVersion) (r : ExecuteResult String) (er : ErrRecord)
    (hp : env.findPrompt = .fulfill p)
    (hv : env.getDeployedPromptVersion = .fulfill pv)
    (hx : env.execute = .fulfill r)
    (herr : r.error = some er) :
    (run T interp env vars options).outcome =
      .error (.pezzoClientError executionFailedMessage er.error (some er.status)) := by
  simp [run, hp, hv, hx, herr]

/-- Claim C2 (witness): the amended statement evaluated on the concrete
error-result environment. -/
theorem C2_amended_classified_error_witness :
    (run String sampleInterp sampleEnvErr [] sampleOptions).outcome =
      .error (.pezzoClientError executionFailedMessage sampleErrRecord.error
        (some sampleErrRecord.status)) :=
  C2_amended_classified_error String sampleInterp sampleEnvErr [] sampleOptions
    ⟨"p1"⟩ samplePV sampleResultErr sampleErrRecord rfl rfl rfl rfl

/-- Claim C3 (counterexample): when the first report submission throws and
the retry's promise rejects with a different error, two report calls occur
but the error raised to the caller is the FIRST submission's failure
(`throw e` at line 145), not the retry's failure as the claim states. -/
theorem C3_raised_error_counterexample :
    (run String sampleInterp sampleEnvReportFail [] sampleOptions).reportCalls.length = 2 ∧
    (run String sampleInterp sampleEnvReportFail [] sampleOptions).outcome =
      .error firstFailure ∧
    firstFailure ≠ retryFailure :=
  ⟨rfl, rfl, by decide⟩

/-- Claim C3 (amended): for every run in which the first report-submission
call throws synchronously, a second report-submission call occurs with a
degraded payload (result omitted) tagged status "Error", and — provided the
retry call itself returns its promise rather than throwing synchronously —
the error raised to the caller is the first submission's failure (the retry
is not awaited), not the retry's settlement. -/
theorem C3_amended_retry_then_first_failure (T : Type)
    (interp : String → List (String × String) → String) (env : Env T)
    (vars : List (String × String)) (options : ExecuteOptions)
    (p : Prompt) (pv : PromptVersion) (r : ExecuteResult String) (e : JsError)
    (hp : env.findPrompt = .fulfill p)
    (hv : env.getDeployedPromptVersion = .fulfill pv)
    (hx : env.execute = .fulfill r)
    (herr : r.error = none)
    (h1 : env.reportFirst = .syncThrow e)
    (h2 : env.reportRetry.settles = true) :
    (run T interp env vars options).reportCalls.map
        (fun rc => (rc.report.status, rc.report.result)) =
      [(r.status, r.result), (Status.error, none)] ∧
    (run T interp env vars options).outcome = .error e := by
  rcases hr2 : env.reportRetry with e2 | v2 | e2
  · rw [hr2] at h2; simp [CallOutcome.settles] at h2
  · simp [run, hp, hv, hx, herr, h1, hr2]
  · simp [run, hp, hv, hx, herr, h1, hr2]

/-- Claim C3 (witness): the amended statement evaluated on the concrete
environment where the first submission throws and the retry rejects. -/
theorem C3_amended_retry_then_first_failure_witness :
    (run String sampleInterp sampleEnvReportFail [] sampleOptions).reportCalls.map
        (fun rc => (rc.report.status, rc.report.result)) =
      [(sampleResultOk.status, sampleResultOk.result), (Status.error, none)] ∧
    (run String sampleInterp sampleEnvReportFail [] sampleOptions).outcome =
      .error firstFailure :=
  C3_amended_retry_then_first_failure String sampleInterp sampleEnvReportFail []
    sampleOptions ⟨"p1"⟩ samplePV sampleResultOk firstFailure rfl rfl rfl rfl rfl rfl

/-- Claim C4 (code bug evaluation): when the `findPrompt` promise rejects
(the ordinary transport/not-found failure mode), `getPrompt`'s catch never
fires — the promise is returned, not awaited, inside the `try` — so the
raw rejection, NOT a wrapping `PezzoClientError`, is raised to the caller;
no report call occurs.  By contrast a synchronous throw from `findPrompt`
is wrapped as the claim describes (third and fourth conjuncts). -/
theorem C4_lookup_rejection_propagates_unwrapped :
    (run String sampleInterp sampleEnvLookupReject [] sampleOptions).outcome =
      .error (.external 21 "prompt not found") ∧
    (run String sampleInterp sampleEnvLookupReject [] sampleOptions).reportCalls = [] ∧
    (run String sampleInterp sampleEnvLookupThrow [] sampleOptions).outcome =
      .error (.pezzoClientError "prompt not found" lookupFailure none) ∧
    (run String sampleInterp sampleEnvLookupThrow [] sampleOptions).reportCalls = [] :=
  ⟨rfl, rfl, rfl, rfl⟩

/-- Claim C10: when the first report submission throws synchronously, the
first submission was invoked with `options.autoParseJSON` and the retry
without the hint (its `autoParseJSON` argument is omitted), and — whether
the retry's un-awaited promise fulfils or rejects — the error raised to the
caller is the first submission's failure. -/
theorem C10_retry_unhinted_not_awaited (T : Type)
    (interp : String → List (String × String) → String) (env : Env T)
    (vars : List (String × String)) (options : ExecuteOptions)
    (p : Prompt) (pv : PromptVersion) (r : ExecuteResult String) (e : JsError)
    (hp : env.findPrompt = .fulfill p)
    (hv : env.getDeployedPromptVersion = .fulfill pv)
    (hx : env.execute = .fulfill r)
    (herr : r.error = none)
    (h1 : env.reportFirst = .syncThrow e)
    (h2 : env.reportRetry.settles = true) :
    (run T interp env vars options).reportCalls.map (fun rc => rc.autoParseJSON) =
      [options.autoParseJSON, none] ∧
    (run T interp env vars options).outcome = .error e := by
  rcases hr2 : env.reportRetry with e2 | v2 | e2
  · rw [hr2] at h2; simp [CallOutcome.settles] at h2
  · simp [run, hp, hv, hx, herr, h1, hr2]
  · simp [run, hp, hv, hx, herr, h1, hr2]

/-- Claim C10 (witness): evaluated on the concrete environment where the
first submission throws synchronously and the retry rejects. -/
theorem C10_retry_unhinted_not_awaited_witness :
    (run String sampleInterp sampleEnvReportFail [] sampleOptions).reportCalls.map
        (fun rc => rc.autoParseJSON) = [sampleOptions.autoParseJSON, none] ∧
    (run String sampleInterp sampleEnvReportFail [] sampleOptions).outcome =
      .error firstFailure :=
  C10_retry_unhinted_not_awaited String sampleInterp sampleEnvReportFail []
    sampleOptions ⟨"p1"⟩ samplePV sampleResultOk firstFailure rfl rfl rfl rfl rfl rfl

/-- Claim C5: on a fully successful run (prompt and version resolve, the
backend result is a success with no error record, the report submission
fulfils), `run` returns exactly the report submission's resolved value, and
exactly one report is submitted, with status "Success" and non-negative
duration (the `performance.now()` clock is monotone: start ≤ end). -/
theorem C5_success_path (T : Type)
    (interp : String → List (String × String) → String) (env : Env T)
    (vars : List (String × String)) (options : ExecuteOptions)
    (p : Prompt) (pv : PromptVersion) (r : ExecuteResult String) (v : T)
    (hp : env.findPrompt = .fulfill p)
    (hv : env.getDeployedPromptVersion = .fulfill pv)
    (hx : env.execute = .fulfill r)
    (herr : r.error = none)
    (hst : r.status = .success)
    (hrep : env.reportFirst = .fulfill v)
    (ht : env.startTime ≤ env.endTime) :
    (run T interp env vars options).outcome = .ok v ∧
    (run T interp env vars options).reportCalls.map (fun rc => rc.report.status) =
      [Status.success] ∧
    ∀ rc ∈ (run T interp env vars options).reportCalls, 0 ≤ rc.report.duration := by
  refine ⟨?_, ?_, ?_⟩
  · simp [run, hp, hv, hx, herr, hrep]
  · simp [run, hp, hv, hx, herr, hst, hrep]
  · simp only [run, hp, hv, hx, herr, hrep]
    simp
    exact Int.ceil_nonneg (by linarith)

/-- Claim C5 (witness): the success path evaluated on the concrete
environment. -/
theorem C5_success_path_witness :
    (run String sampleInterp sampleEnvOk [] sampleOptions).outcome = .ok "reported" ∧
    (run String sampleInterp sampleEnvOk [] sampleOptions).reportCalls.map
        (fun rc => rc.report.status) = [Status.success] ∧
    ∀ rc ∈ (run String sampleInterp sampleEnvOk [] sampleOptions).reportCalls,
      0 ≤ rc.report.duration :=
  C5_success_path String sampleInterp sampleEnvOk [] sampleOptions ⟨"p1"⟩ samplePV
    sampleResultOk "reported" rfl rfl rfl rfl rfl rfl (by norm_num [sampleEnvOk])

/-- Claim C6: every report submitted by `run` (first attempt or retry) takes
its token counts and costs from the backend execution result, with
`totalTokens = promptTokens + completionTokens` and
`totalCost = promptCost + completionCost`. -/
theorem C6_report_totals_from_backend (T : Type)
    (interp : String → List (String × String) → String) (env : Env T)
    (vars : List (String × String)) (options : ExecuteOptions)
    (r : ExecuteResult String) (hx : env.execute = .fulfill r) :
    ∀ rc ∈ (run T interp env vars options).reportCalls,
      rc.report.promptTokens = r.promptTokens ∧
      rc.report.completionTokens = r.completionTokens ∧
      rc.report.totalTokens = r.promptTokens + r.completionTokens ∧
      rc.report.promptCost = r.promptCost ∧
      rc.report.completionCost = r.completionCost ∧
      rc.report.totalCost = r.promptCost + r.completionCost := by
  obtain ⟨fp, gd, ex, r1, r2, s, t⟩ := env
  have hx2 : ex = .fulfill r := hx
  subst hx2
  rcases fp with e | p | e <;> rcases gd with e2 | pv | e2 <;>
    rcases r1 with e4 | v4 | e4 <;> rcases r2 with e5 | v5 | e5 <;>
    first
      | (simp [run]; done)
      | (rcases hre : r.error with _ | er <;> simp [run, hre])

/-- Claim C6 (witness): the totals invariant evaluated at the report call
`run` makes in the concrete successful environment. -/
theorem C6_report_totals_from_backend_witness :
    sampleReportCall.report.promptTokens = sampleResultOk.promptTokens ∧
    sampleReportCall.report.completionTokens = sampleResultOk.completionTokens ∧
    sampleReportCall.report.totalTokens =
      sampleResultOk.promptTokens + sampleResultOk.completionTokens ∧
    sampleReportCall.report.promptCost = sampleResultOk.promptCost ∧
    sampleReportCall.report.completionCost = sampleResultOk.completionCost ∧
    sampleReportCall.report.totalCost =
      sampleResultOk.promptCost + sampleResultOk.completionCost :=
  C6_report_totals_from_backend String sampleInterp sampleEnvOk [] sampleOptions
    sampleResultOk rfl sampleReportCall (List.Mem.head _)

/-- Claim C7: on every run whose prompt and version lookups resolve, the
backend executor's `execute` is invoked exactly once, with content equal to
the interpolation of the version's content with the caller's variables, with
settings holding exactly the `model` and `modelSettings` fields of the
version's settings (other fields dropped), and with the caller's options;
the interpolation utility is invoked exactly once there, and at most once on
every run whatsoever. -/
theorem C7_execute_invoked_once (T : Type)
    (interp : String → List (String × String) → String) (env : Env T)
    (vars : List (String × String)) (options : ExecuteOptions)
    (p : Prompt) (pv : PromptVersion)
    (hp : env.findPrompt = .fulfill p)
    (hv : env.getDeployedPromptVersion = .fulfill pv) :
    (run T interp env vars options).executeCalls =
      [{ content := interp pv.content vars
         settings := { model := pv.settings.model
                       modelSettings := pv.settings.modelSettings }
         options := options }] ∧
    (run T interp env vars options).interpolateCalls = [(pv.content, vars)] ∧
    ∀ env2 : Env T, (run T interp env2 vars options).interpolateCalls.length ≤ 1 := by
  have main : (run T interp env vars options).executeCalls =
      [{ content := interp pv.content vars
         settings := { model := pv.settings.model
                       modelSettings := pv.settings.modelSettings }
         options := options }] ∧
      (run T interp env vars options).interpolateCalls = [(pv.content, vars)] := by
    rcases hx : env.execute with e | r | e
    · simp [run, hp, hv, hx]
    · rcases hre : r.error with _ | er
      · rcases h1 : env.reportFirst with e3 | v3 | e3
        · rcases h2 : env.reportRetry with e4 | v4 | e4 <;>
            simp [run, hp, hv, hx, hre, h1, h2]
        · simp [run, hp, hv, hx, hre, h1]
        · simp [run, hp, hv, hx, hre, h1]
      · simp [run, hp, hv, hx, hre]
    · simp [run, hp, hv, hx]
  refine ⟨main.1, main.2, ?_⟩
  intro env2
  obtain ⟨fp, gd, ex, r1, r2, s, t⟩ := env2
  rcases fp with e | p2 | e <;> rcases gd with e2 | pv2 | e2 <;>
    rcases ex with e3 | r3 | e3 <;> rcases r1 with e4 | v4 | e4 <;>
    rcases r2 with e5 | v5 | e5 <;>
    first
      | (simp [run]; done)
      | (rcases hre : r3.error with _ | er <;> simp [run, hre])

/-- Claim C7 (witness): the execute-call shape evaluated on the concrete
successful environment. -/
theorem C7_execute_invoked_once_witness :
    (run String sampleInterp sampleEnvOk [] sampleOptions).executeCalls =
      [{ content := sampleInterp samplePV.content []
         settings := { model := samplePV.settings.model
                       modelSettings := samplePV.settings.modelSettings }
         options := sampleOptions }] ∧
    (run String sampleInterp sampleEnvOk [] sampleOptions).interpolateCalls =
      [(samplePV.content, [])] ∧
    ∀ env2 : Env String,
      (run String sampleInterp env2 [] sampleOptions).interpolateCalls.length ≤ 1 :=
  C7_execute_invoked_once String sampleInterp sampleEnvOk [] sampleOptions ⟨"p1"⟩
    samplePV rfl rfl

/-- Claim C8: every run makes at most two report-submission calls, and makes
none at all when the prompt lookup or the deployed-version lookup fails
(synchronously or by rejection). -/
theorem C8_at_most_two_reports (T : Type)
    (interp : String → List (String × String) → String) (env : Env T)
    (vars : List (String × String)) (options : ExecuteOptions) :
    (run T interp env vars options).reportCalls.length ≤ 2 ∧
    ((env.findPrompt.isFailure = true ∨ env.getDeployedPromptVersion.isFailure = true) →
      (run T interp env vars options).reportCalls = []) := by
  obtain ⟨fp, gd, ex, r1, r2, s, t⟩ := env
  rcases fp with e | p2 | e <;> rcases gd with e2 | pv2 | e2 <;>
    rcases ex with e3 | r3 | e3 <;> rcases r1 with e4 | v4 | e4 <;>
    rcases r2 with e5 | v5 | e5 <;>
    first
      | (simp [run, CallOutcome.isFailure]; done)
      | (rcases hre : r3.error with _ | er <;> simp [run, CallOutcome.isFailure, hre])

/-- Claim C8 (witness): the bound evaluated on the environment whose prompt
lookup rejects. -/
theorem C8_at_most_two_reports_witness :
    (run String sampleInterp sampleEnvLookupReject [] sampleOptions).reportCalls.length ≤ 2 ∧
    ((sampleEnvLookupReject.findPrompt.isFailure = true ∨
        sampleEnvLookupReject.getDeployedPromptVersion.isFailure = true) →
      (run String sampleInterp sampleEnvLookupReject [] sampleOptions).reportCalls = []) :=
  C8_at_most_two_reports String sampleInterp sampleEnvLookupReject [] sampleOptions

/-- Claim C9: every report `run` ever submits has its `error` field absent:
the reporting code is reachable only when the backend result carries no
error record, so the conditional spread of `printableError` never fires, in
the first payload or in the retry payload. -/
theorem C9_reports_omit_error_field (T : Type)
    (interp : String → List (String × String) → String) (env : Env T)
    (vars : List (String × String)) (options : ExecuteOptions) :
    ∀ rc ∈ (run T interp env vars options).reportCalls, rc.report.error = none := by
  obtain ⟨fp, gd, ex, r1, r2, s, t⟩ := env
  rcases fp with e | p2 | e <;> rcases gd with e2 | pv2 | e2 <;>
    rcases ex with e3 | r3 | e3 <;> rcases r1 with e4 | v4 | e4 <;>
    rcases r2 with e5 | v5 | e5 <;>
    first
      | (simp [run]; done)
      | (rcases hre : r3.error with _ | er <;> simp [run, hre])

/-- Claim C9 (witness): evaluated at the report call `run` makes in the
concrete successful environment. -/
theorem C9_reports_omit_error_field_witness :
    sampleReportCall.report.error = none :=
  C9_reports_omit_error_field String sampleInterp sampleEnvOk [] sampleOptions
    sampleReportCall (List.Mem.head _)

end BaseExecutor
